import Mathlib

/-!
# Verification of the djfirebirdsql dialect-translation core

Shallow embedding of the value-quoting and parameter-substitution logic of
`src/djfirebirdsql/base.py` and the schema-editor logic of
`src/djfirebirdsql/schema.py`, together with proofs of the specified
properties.

The Python values that reach `quote_value` are modelled as a tagged union
`Value` mirroring the `isinstance` dispatch chain of the source; Python
strings become Lean `String`s (lists of characters), byte sequences become
`List Nat` with every element below 256, and datetimes become an abstract
instant plus optional UTC offset.
-/

/-- A Python `datetime.datetime` value: `naive` is the wall-clock reading as an
abstract instant (e.g. microseconds since some epoch, in the wall-clock frame)
and `tzOffset` is `utcoffset()` in the same unit, `none` for a naive datetime.
-/
structure PyDatetime where
  naive : Int
  tzOffset : Option Int
  deriving DecidableEq, Repr

/-- `str(value)` on a datetime. The exact calendar rendering is irrelevant to
every property under verification (they only constrain which datetime value
reaches the quoter), so an injective rendering of the (instant, offset) pair
stands in for the calendar string. -/
def PyDatetime.str (d : PyDatetime) : String :=
  toString d.naive ++ (match d.tzOffset with
    | none => ""
    | some o => "+" ++ toString o)

/-- The runtime values `quote_value` dispatches over, one constructor per
branch of its `isinstance` chain (base.py lines 35-45, schema.py lines 9-20):
`datetime.date` / `datetime.time` values (carried as their `str()` rendering),
`datetime.datetime` values, `str`, `bytes`/`bytearray`/`memoryview` (a list of
byte values), `None`, and everything else (numerics, carried as their `str()`
rendering). -/
inductive Value where
  | date (s : String)
  | datetime (d : PyDatetime)
  | text (s : String)
  | binary (bs : List Nat)
  | null
  | num (s : String)
  deriving DecidableEq, Repr

/-- Embeds `value.replace("\'", "\'\'")` (base.py line 39): the pattern is the
single character `'`, so the replacement doubles each occurrence. -/
def escape_quotes : List Char → List Char
  | [] => []
  | c :: rest =>
    if c = '\'' then '\'' :: '\'' :: escape_quotes rest
    else c :: escape_quotes rest

/-- The nibble-to-character map used by `binascii.hexlify`: lowercase
hexadecimal digits. -/
def hexDigit (n : Nat) : Char :=
  if n < 10 then Char.ofNat ('0'.toNat + n) else Char.ofNat ('a'.toNat + (n - 10))

/-- Embeds `binascii.hexlify(value).decode('ascii')` (base.py line 41): two
lowercase hex digits per byte, high nibble first. Python bytes are always in
`0..255`; the claims carry that bound as a hypothesis. -/
def hexlify (bs : List Nat) : List Char :=
  bs.flatMap (fun b => [hexDigit (b / 16), hexDigit (b % 16)])

/-- `quote_value` (base.py lines 35-45; the copy at schema.py lines 9-20 is
textually identical): dates/times/datetimes are wrapped in single quotes via
`str()`, strings are wrapped in single quotes with interior quotes doubled,
byte sequences become `x'<lowercase hex>'`, `None` becomes `NULL`, and
everything else is its plain `str()`. -/
def quote_value : Value → String
  | .date s => "'" ++ s ++ "'"
  | .datetime d => "'" ++ d.str ++ "'"
  | .text s => "'" ++ String.mk (escape_quotes s.data) ++ "'"
  | .binary bs => "x'" ++ String.mk (hexlify bs) ++ "'"
  | .null => "NULL"
  | .num s => s

/-- The spec's re-parse of a quoted text literal's interior: each doubled
single quote collapses back to one. -/
def undouble_quotes : List Char → List Char
  | [] => []
  | c :: rest =>
    if c = '\'' then
      match rest with
      | [] => [c]
      | c2 :: rest2 =>
        if c2 = '\'' then '\'' :: undouble_quotes rest2
        else c :: undouble_quotes (c2 :: rest2)
    else c :: undouble_quotes rest

/-- The value of a hexadecimal digit character, accepting both cases. -/
def hexVal : Char → Option Nat
  | c =>
    if '0' ≤ c ∧ c ≤ '9' then some (c.toNat - '0'.toNat)
    else if 'a' ≤ c ∧ c ≤ 'f' then some (c.toNat - 'a'.toNat + 10)
    else if 'A' ≤ c ∧ c ≤ 'F' then some (c.toNat - 'A'.toNat + 10)
    else none

/-- Decode a hex-digit string back into bytes, two digits per byte,
case-insensitively; fails on a non-digit or an odd-length input. -/
def unhexlify : List Char → Option (List Nat)
  | [] => some []
  | [_] => none
  | c1 :: c2 :: rest => do
    let h ← hexVal c1
    let l ← hexVal c2
    let t ← unhexlify rest
    pure ((h * 16 + l) :: t)

/-- The character is one of `0-9a-f`. -/
def isLowerHexDigit (c : Char) : Bool :=
  ('0' ≤ c && c ≤ '9') || ('a' ≤ c && c ≤ 'f')

theorem undouble_escape (l : List Char) :
    undouble_quotes (escape_quotes l) = l := by
  induction l with
  | nil => rfl
  | cons c rest ih =>
    by_cases h : c = '\''
    · subst h
      simp [escape_quotes, undouble_quotes, ih]
    · simp only [escape_quotes, if_neg h]
      cases he : escape_quotes rest with
      | nil =>
        simp [undouble_quotes, if_neg h, he] at ih ⊢
        exact ih
      | cons d ds =>
        simp only [undouble_quotes, if_neg h, he] at ih ⊢
        rw [ih]

theorem count_escape_quote (l : List Char) :
    (escape_quotes l).count '\'' = 2 * l.count '\'' := by
  induction l with
  | nil => rfl
  | cons c rest ih =>
    by_cases h : c = '\''
    · subst h; simp [escape_quotes, List.count_cons, ih]; ring
    · simp [escape_quotes, if_neg h, List.count_cons, h, ih]

theorem count_escape_other (l : List Char) (c : Char) (hc : c ≠ '\'') :
    (escape_quotes l).count c = l.count c := by
  induction l with
  | nil => rfl
  | cons d rest ih =>
    by_cases h : d = '\''
    · subst h
      simp [escape_quotes, List.count_cons, ih, Ne.symm hc]
    · simp [escape_quotes, if_neg h, List.count_cons, ih]

/-- **C1.** Quoting a text value wraps it in single quotes with every interior
single quote doubled (and the count of every other character, in particular of
backslashes, unchanged: no backslash escaping), and un-doubling the quotes of
the interior recovers the original text exactly. -/
theorem quote_text_roundtrip (s : String) :
    quote_value (.text s) = "'" ++ String.mk (escape_quotes s.data) ++ "'" ∧
    (escape_quotes s.data).count '\'' = 2 * s.data.count '\'' ∧
    (∀ c : Char, c ≠ '\'' → (escape_quotes s.data).count c = s.data.count c) ∧
    undouble_quotes (escape_quotes s.data) = s.data := by
  refine ⟨rfl, count_escape_quote _, fun c hc => count_escape_other _ c hc,
    undouble_escape _⟩

/-- **C1 witness.** On the concrete text `a'b`, the quoted form is `'a''b'`
and the interior un-doubles back to `a'b`. -/
theorem quote_text_roundtrip_witness :
    quote_value (.text "a'b") = "'a''b'" ∧
    undouble_quotes (escape_quotes "a'b".data) = "a'b".data := by
  have h := quote_text_roundtrip "a'b"
  exact ⟨h.1.trans (by decide), h.2.2.2⟩

/-- **C9.** Quoting a null input yields exactly the four-character uppercase
string `NULL`, with no surrounding quotes. -/
theorem quote_null : quote_value .null = "NULL" ∧ (quote_value .null).length = 4 := by
  exact ⟨rfl, rfl⟩

theorem hexVal_hexDigit : ∀ n : Nat, n < 16 → hexVal (hexDigit n) = some n := by
  decide

theorem hexVal_toUpper_hexDigit :
    ∀ n : Nat, n < 16 → hexVal (Char.toUpper (hexDigit n)) = some n := by
  decide

theorem isLowerHexDigit_hexDigit :
    ∀ n : Nat, n < 16 → isLowerHexDigit (hexDigit n) = true := by
  decide

theorem unhexlify_hexlify (bs : List Nat) (h : ∀ b ∈ bs, b < 256) :
    unhexlify (hexlify bs) = some bs := by
  induction bs with
  | nil => rfl
  | cons b rest ih =>
    have hb : b < 256 := h b (List.mem_cons_self _ _)
    have hhi : b / 16 < 16 := by omega
    have hlo : b % 16 < 16 := by omega
    have hrec := ih (fun x hx => h x (List.mem_cons_of_mem _ hx))
    simp only [hexlify, List.flatMap_cons] at *
    simp only [List.cons_append, List.nil_append, unhexlify,
      hexVal_hexDigit _ hhi, hexVal_hexDigit _ hlo,
      Option.bind_eq_bind, Option.some_bind]
    have hby : b / 16 * 16 + b % 16 = b := by omega
    simp [hrec, hby]

theorem unhexlify_toUpper_hexlify (bs : List Nat) (h : ∀ b ∈ bs, b < 256) :
    unhexlify ((hexlify bs).map Char.toUpper) = some bs := by
  induction bs with
  | nil => rfl
  | cons b rest ih =>
    have hb : b < 256 := h b (List.mem_cons_self _ _)
    have hhi : b / 16 < 16 := by omega
    have hlo : b % 16 < 16 := by omega
    have hrec := ih (fun x hx => h x (List.mem_cons_of_mem _ hx))
    simp only [hexlify, List.flatMap_cons] at *
    simp only [List.cons_append, List.nil_append, List.map_cons, List.map_append,
      unhexlify, hexVal_toUpper_hexDigit _ hhi, hexVal_toUpper_hexDigit _ hlo,
      Option.bind_eq_bind, Option.some_bind]
    have hby : b / 16 * 16 + b % 16 = b := by omega
    simp [hrec, hby]

/-- **C6.** Quoting a byte sequence yields `x'` followed by the lowercase hex
digits of the bytes followed by `'`, and decoding those digits — also after
mapping them to uppercase, i.e. case-insensitively — recovers the bytes
exactly. -/
theorem quote_binary_hex (bs : List Nat) (h : ∀ b ∈ bs, b < 256) :
    quote_value (.binary bs) = "x'" ++ String.mk (hexlify bs) ++ "'" ∧
    (∀ c ∈ hexlify bs, isLowerHexDigit c = true) ∧
    unhexlify (hexlify bs) = some bs ∧
    unhexlify ((hexlify bs).map Char.toUpper) = some bs := by
  refine ⟨rfl, ?_, unhexlify_hexlify bs h, unhexlify_toUpper_hexlify bs h⟩
  intro c hc
  simp only [hexlify, List.mem_flatMap] at hc
  obtain ⟨b, hb, hcb⟩ := hc
  have : b < 256 := h b hb
  simp only [List.mem_cons, List.not_mem_nil, or_false] at hcb
  rcases hcb with h1 | h1
  · exact h1 ▸ isLowerHexDigit_hexDigit _ (by omega)
  · exact h1 ▸ isLowerHexDigit_hexDigit _ (by omega)

/-- **C6 witness.** On the concrete bytes `[0xAB, 0xCD]`, the quoted form is
`x'abcd'` and both decodings recover the bytes. -/
theorem quote_binary_hex_witness :
    quote_value (.binary [171, 205]) = "x'abcd'" ∧
    unhexlify (hexlify [171, 205]) = some [171, 205] := by
  have h := quote_binary_hex [171, 205] (by decide)
  exact ⟨h.1.trans (by decide), h.2.2.1⟩

/-- The template is well formed in the sense of the spec's data model: every
percent sign starts either the marker `%s` or the escape `%%` (the spec's
Query Template reserves `%s` as the only marker and flags other uses of `%`
as out of contract). -/
def wfTemplate : List Char → Bool
  | [] => true
  | c :: rest =>
    if c = '%' then
      match rest with
      | [] => false
      | c2 :: rest2 => (c2 = 's' || c2 = '%') && wfTemplate rest2
    else wfTemplate rest

/-- The number of `%s` markers in a template, with `%%` treated as an escape
and not a marker. -/
def markerCount : List Char → Nat
  | [] => 0
  | c :: rest =>
    if c = '%' then
      match rest with
      | [] => 0
      | c2 :: rest2 =>
        if c2 = 's' then markerCount rest2 + 1 else markerCount rest2
    else markerCount rest

/-- Follows the spec's words for substitution: each literal is substituted at
the successive marker positions in the order given, and `%%` collapses to a
literal percent sign. Defined from the spec, to be compared with `pyFormat`
below, which embeds the host formatting facility. -/
def renderSpec : List Char → List String → List Char
  | [], _ => []
  | c :: rest, args =>
    if c = '%' then
      match rest with
      | [] => [c]
      | c2 :: rest2 =>
        if c2 = 's' then (args.headD "").data ++ renderSpec rest2 args.tail
        else if c2 = '%' then '%' :: renderSpec rest2 args
        else c :: c2 :: renderSpec rest2 args
    else c :: renderSpec rest args

/-- Embeds Python `%`-formatting with string arguments as used by
`convert_sql` (base.py lines 58-61), on templates whose conversions are the
marker `%s` and the escape `%%`: each `%s` consumes the next argument, a
leftover argument or a missing one raises, mirroring the `TypeError`s of the
host facility ("not all arguments converted" / "not enough arguments").
Conversions other than `s` and `%` are outside the spec's template contract
and are mapped to an error. -/
def pyFormat : List Char → List String → Except String (List Char)
  | [], args =>
    if args.isEmpty then .ok []
    else .error "not all arguments converted during string formatting"
  | c :: rest, args =>
    if c = '%' then
      match rest with
      | [] => .error "incomplete format"
      | c2 :: rest2 =>
        if c2 = 's' then
          match args with
          | [] => .error "not enough arguments for format string"
          | a :: args2 => (pyFormat rest2 args2).map (fun r => a.data ++ r)
        else if c2 = '%' then (pyFormat rest2 args).map (fun r => '%' :: r)
        else .error "unsupported format character"
    else (pyFormat rest args).map (fun r => c :: r)

/-- `timezone.is_aware(v)`: the datetime carries a UTC offset. -/
def PyDatetime.is_aware (d : PyDatetime) : Bool :=
  d.tzOffset.isSome

/-- `v.astimezone(timezone.utc).replace(tzinfo=None)`: re-express the instant
in UTC (wall clock minus the UTC offset) and drop the timezone. -/
def PyDatetime.to_naive_utc (d : PyDatetime) : PyDatetime :=
  ⟨d.naive - d.tzOffset.getD 0, none⟩

/-- The per-parameter conversion of the loop in `convert_sql` (base.py lines
53-57): an aware datetime is normalized to a naive UTC datetime; every other
value is kept as is. -/
def convert_param (v : Value) : Value :=
  match v with
  | .datetime d => if d.is_aware then .datetime d.to_naive_utc else v
  | _ => v

/-- `convert_sql` (base.py lines 48-62). Empty `params` returns the query
unchanged; otherwise each parameter is converted and quoted and the query is
`%`-formatted with the single literal (`query % converted_params[0]`) when
there is exactly one, else with the tuple of literals
(`query % tuple(converted_params)`). A single `str` right operand of `%`
behaves exactly like a one-element tuple, so both branches feed `pyFormat`
the same way. -/
def convert_sql (query : String) (params : List Value) : Except String String :=
  if params = [] then .ok query
  else
    let converted := params.map (fun p => quote_value (convert_param p))
    match converted with
    | [c] => (pyFormat query.data [c]).map String.mk
    | cs => (pyFormat query.data cs).map String.mk

/-- **C7.** Rendering with an empty value sequence returns the template
unchanged, whatever the template contains. -/
theorem convert_sql_empty_params (query : String) :
    convert_sql query [] = .ok query := rfl

theorem pyFormat_eq_renderSpec :
    ∀ (t : List Char) (args : List String),
    wfTemplate t = true → markerCount t = args.length →
    pyFormat t args = .ok (renderSpec t args) := by
  intro t args
  induction t, args using pyFormat.induct with
  | case1 args h =>
    intro _ _
    rw [List.isEmpty_iff] at h
    subst h
    rfl
  | case2 args h =>
    intro _ hc
    rw [List.isEmpty_iff] at h
    simp only [markerCount] at hc
    exact absurd (List.length_eq_zero.mp hc.symm) h
  | case3 args =>
    intro hwf _
    simp [wfTemplate] at hwf
  | case4 rest2 =>
    intro _ hc
    simp [markerCount] at hc
  | case5 rest2 a args2 ih =>
    intro hwf hc
    simp only [wfTemplate] at hwf
    simp only [markerCount] at hc
    norm_num at hwf hc
    simp only [pyFormat, renderSpec]
    norm_num
    rw [ih hwf hc]
    rfl
  | case6 args rest2 hne ih =>
    intro hwf hc
    simp only [wfTemplate] at hwf
    simp only [markerCount] at hc
    norm_num at hwf hc
    simp only [pyFormat, renderSpec]
    norm_num
    rw [ih hwf hc]
    rfl
  | case7 args c2 rest2 hs hp =>
    intro hwf _
    simp [wfTemplate, hs, hp] at hwf
  | case8 c rest args hne ih =>
    intro hwf hc
    rw [wfTemplate.eq_def] at hwf
    simp [hne] at hwf
    rw [markerCount.eq_def] at hc
    simp [hne] at hc
    rw [pyFormat.eq_def, renderSpec.eq_def]
    simp only [if_neg hne]
    rw [ih hwf hc]
    rfl

theorem pyFormat_error_of_mismatch :
    ∀ (t : List Char) (args : List String),
    wfTemplate t = true → markerCount t ≠ args.length →
    ∃ e, pyFormat t args = .error e := by
  intro t args
  induction t, args using pyFormat.induct with
  | case1 args h =>
    intro _ hc
    rw [List.isEmpty_iff] at h
    subst h
    simp [markerCount] at hc
  | case2 args h =>
    intro _ _
    exact ⟨"not all arguments converted during string formatting",
      by simp [pyFormat, h]⟩
  | case3 args =>
    intro hwf _
    simp [wfTemplate] at hwf
  | case4 rest2 =>
    intro _ _
    exact ⟨"not enough arguments for format string", rfl⟩
  | case5 rest2 a args2 ih =>
    intro hwf hc
    simp only [wfTemplate] at hwf
    simp only [markerCount, List.length_cons] at hc
    norm_num at hwf hc
    obtain ⟨e, he⟩ := ih hwf hc
    refine ⟨e, ?_⟩
    simp only [pyFormat]
    norm_num
    rw [he]
    rfl
  | case6 args rest2 hne ih =>
    intro hwf hc
    simp only [wfTemplate] at hwf
    simp only [markerCount] at hc
    norm_num at hwf hc
    obtain ⟨e, he⟩ := ih hwf hc
    refine ⟨e, ?_⟩
    simp only [pyFormat]
    norm_num
    rw [he]
    rfl
  | case7 args c2 rest2 hs hp =>
    intro hwf _
    simp [wfTemplate, hs, hp] at hwf
  | case8 c rest args hne ih =>
    intro hwf hc
    rw [wfTemplate.eq_def] at hwf
    simp [hne] at hwf
    rw [markerCount.eq_def] at hc
    simp [hne] at hc
    obtain ⟨e, he⟩ := ih hwf hc
    refine ⟨e, ?_⟩
    rw [pyFormat.eq_def]
    simp only [if_neg hne]
    rw [he]
    rfl

theorem convert_sql_eq_pyFormat (query : String) (params : List Value)
    (hn : params ≠ []) :
    convert_sql query params =
      (pyFormat query.data
        (params.map (fun p => quote_value (convert_param p)))).map String.mk := by
  rw [convert_sql, if_neg hn]
  cases hm : params.map (fun p => quote_value (convert_param p)) with
  | nil =>
    exact absurd (List.map_eq_nil_iff.mp hm) hn
  | cons a l =>
    cases l with
    | nil => simp [hm]
    | cons b m => simp [hm]

/-- **C2.** For every well-formed template and non-empty value sequence whose
length equals the template's marker count, rendering quotes each value via the
quoter (after the per-parameter datetime conversion) and substitutes the
resulting literals at the successive marker positions in the order given —
`renderSpec` states the spec's substitution in those words; a single value is
passed to the host formatting as a scalar and several values as a tuple, with
the same result. -/
theorem convert_sql_substitutes (query : String) (params : List Value)
    (hn : params ≠ [])
    (hwf : wfTemplate query.data = true)
    (hc : markerCount query.data = params.length) :
    convert_sql query params =
      .ok (String.mk (renderSpec query.data
        (params.map (fun p => quote_value (convert_param p))))) := by
  rw [convert_sql_eq_pyFormat query params hn,
    pyFormat_eq_renderSpec query.data _ hwf (by rw [List.length_map]; exact hc)]
  rfl

/-- **C2 witness.** Two markers and two values: the literals land positionally
in order, `NULL` first and the escaped text second. -/
theorem convert_sql_substitutes_witness :
    convert_sql "a = %s AND b = %s" [Value.null, Value.text "x'y"] =
      .ok "a = NULL AND b = 'x''y'" := by
  have h := convert_sql_substitutes "a = %s AND b = %s"
    [Value.null, Value.text "x'y"] (by simp) (by decide) (by decide)
  exact h.trans (by rfl)

/-- **C8.** For every well-formed template and non-empty value sequence whose
length differs from the template's marker count, rendering fails with an
error propagated from the host string-formatting facility instead of
returning a string. -/
theorem convert_sql_mismatch_fails (query : String) (params : List Value)
    (hn : params ≠ [])
    (hwf : wfTemplate query.data = true)
    (hc : markerCount query.data ≠ params.length) :
    ∃ e, convert_sql query params = .error e := by
  obtain ⟨e, he⟩ := pyFormat_error_of_mismatch query.data
    (params.map (fun p => quote_value (convert_param p))) hwf
    (by rw [List.length_map]; exact hc)
  exact ⟨e, by rw [convert_sql_eq_pyFormat query params hn, he]; rfl⟩

/-- **C8 witness.** One marker but two values: rendering fails. -/
theorem convert_sql_mismatch_fails_witness :
    ∃ e, convert_sql "a = %s" [Value.null, Value.null] = .error e :=
  convert_sql_mismatch_fails "a = %s" [Value.null, Value.null]
    (by simp) (by decide) (by decide)

/-- **C10.** Inside rendering, every timezone-aware datetime parameter is
first re-expressed in UTC with its timezone stripped (a naive UTC datetime)
before being handed to the quoter, while naive datetimes and non-datetime
parameters reach the quoter unchanged: `convert_sql` formats the query with
exactly the literals `quote_value (convert_param p)`. -/
theorem convert_sql_normalizes_aware_datetimes :
    (∀ d : PyDatetime, d.is_aware = true →
      convert_param (.datetime d) =
        .datetime ⟨d.naive - d.tzOffset.getD 0, none⟩ ∧
      ∀ d2, convert_param (.datetime d) = .datetime d2 → d2.is_aware = false) ∧
    (∀ d : PyDatetime, d.is_aware = false → convert_param (.datetime d) = .datetime d) ∧
    (∀ v : Value, (∀ d, v ≠ .datetime d) → convert_param v = v) ∧
    (∀ (query : String) (params : List Value), params ≠ [] →
      convert_sql query params =
        (pyFormat query.data
          (params.map (fun p => quote_value (convert_param p)))).map String.mk) := by
  refine ⟨?_, ?_, ?_, fun q ps hn => convert_sql_eq_pyFormat q ps hn⟩
  · intro d hd
    refine ⟨by simp [convert_param, hd, PyDatetime.to_naive_utc], ?_⟩
    intro d2 h2
    simp only [convert_param, hd, if_pos] at h2
    cases h2
    rfl
  · intro d hd
    simp [convert_param, hd]
  · intro v hv
    cases v with
    | datetime d => exact absurd rfl (hv d)
    | date s => rfl
    | text s => rfl
    | binary bs => rfl
    | null => rfl
    | num s => rfl

/-- **C10 witness.** A concrete aware datetime (instant 100 at offset +60) is
normalized to the naive UTC datetime 40, a naive one and a text value are
untouched, and a concrete render call uses the normalized literal. -/
theorem convert_sql_normalizes_aware_datetimes_witness :
    convert_param (.datetime ⟨100, some 60⟩) = .datetime ⟨40, none⟩ ∧
    convert_param (.datetime ⟨100, none⟩) = .datetime ⟨100, none⟩ ∧
    convert_param (.text "a") = .text "a" := by
  refine ⟨?_, ?_, ?_⟩
  · exact ((convert_sql_normalizes_aware_datetimes.1 ⟨100, some 60⟩ rfl).1).trans
      (by decide)
  · exact convert_sql_normalizes_aware_datetimes.2.1 ⟨100, none⟩ rfl
  · exact convert_sql_normalizes_aware_datetimes.2.2.1 (.text "a")
      (fun d => by simp)

/-!
## Schema editor (`src/djfirebirdsql/schema.py`)

The DDL string templates of `DatabaseSchemaEditor` are embedded as the
constants below; `%(name)s`-style filling of a fixed template is splicing, so
each template comes with its fill function. `delete_model` and `_column_sql`
are modelled on the SQL statements they emit; the framework base class
(`BaseDatabaseSchemaEditor`) is not part of this repository's sources, so the
two places where control passes to it are modelled from the spec and marked
as such.
-/

/-- `sql_rename_table` (schema.py line 24): deliberately not a SQL template
but the unsupported-operation message, per the adjacent `Not supported`
comment. -/
def sql_rename_table : String := "Rename table is not allowed"

/-- `sql_delete_table` (schema.py line 25). -/
def sql_delete_table : String := "DROP TABLE %(table)s"

/-- `sql_delete_fk` (schema.py line 33). -/
def sql_delete_fk : String := "ALTER TABLE %(table)s DROP CONSTRAINT %(name)s"

/-- `sql_delete_fk % \x7b'name': name, 'table': table\x7d`: filling the fixed
named template splices the two arguments into its text. -/
def fill_delete_fk (name table : String) : String :=
  "ALTER TABLE " ++ table ++ " DROP CONSTRAINT " ++ name

/-- `sql_delete_table % \x7b'table': table\x7d`. -/
def fill_delete_table (table : String) : String :=
  "DROP TABLE " ++ table

/-- Modelled from the spec: `super().delete_model(model)` lives in the
framework base class, which is not among this repository's sources; per the
spec's delete-table row it emits `DROP TABLE <table>` for the model's table,
i.e. exactly one statement, the filled `sql_delete_table`. -/
def base_delete_model (table : String) : List String :=
  [fill_delete_table table]

/-- Embeds Python `str.upper()` (used as `r[1].upper()` at schema.py line 61):
character-wise uppercasing, written over the character list so that it
evaluates inside the kernel. -/
def py_upper (s : String) : String :=
  String.mk (s.data.map Char.toUpper)

/-- An inbound foreign-key reference as returned by the introspection catalog
query `_get_references` and consumed at schema.py line 61: component 1 is the
constraint name (`r[0]`), component 2 is the referencing table (`r[1]`). -/
def FkReference : Type := String × String

/-- `DatabaseSchemaEditor.delete_model` (schema.py lines 55-62) as the list
of SQL statements it executes, in execution order: one filled `sql_delete_fk`
per catalog reference (with the referencing table upper-cased), then the
statements of `super().delete_model`. -/
def delete_model (table : String) (references : List (String × String)) :
    List String :=
  references.map (fun r => fill_delete_fk r.1 (py_upper r.2)) ++
    base_delete_model table

/-- Modelled from the spec: the framework-side rename-table entry point
(`alter_db_table` of the base class) is not among this repository's sources;
per the spec it must reject with an explicit "operation not supported" signal
rather than emit SQL. The message is the `sql_rename_table` sentinel that
src/ contributes. -/
def alter_db_table (old_table new_table : String) : Except String (List String) :=
  .error sql_rename_table

/-- `DatabaseSchemaEditor._column_sql` (schema.py lines 74-90), reduced to the
data it consumes: the field's rendered DB type and its two flags. The type
string gets ` PRIMARY KEY` appended if the field is a primary key, else
` UNIQUE` if it is unique, else nothing. -/
def column_sql (type_sql : String) (primary_key unique : Bool) : String :=
  if primary_key then type_sql ++ " PRIMARY KEY"
  else if unique then type_sql ++ " UNIQUE"
  else type_sql

/-- **C3.** Deleting a table with `N` inbound foreign-key references emits
exactly `N + 1` statements: for each catalog reference, in order, the filled
drop-constraint statement, and then, last, exactly one `DROP TABLE`
statement. -/
theorem delete_model_statements (table : String)
    (references : List (String × String)) :
    (delete_model table references).length = references.length + 1 ∧
    (∀ i (h : i < references.length),
      (delete_model table references).get? i =
        some (fill_delete_fk (references.get ⟨i, h⟩).1
          (py_upper (references.get ⟨i, h⟩).2))) ∧
    (delete_model table references).get? references.length =
      some ("DROP TABLE " ++ table) := by
  refine ⟨?_, ?_, ?_⟩
  · simp [delete_model, base_delete_model]
  · intro i h
    rw [delete_model, List.get?_append (by simpa using h)]
    rw [List.get?_map]
    rw [List.get?_eq_get h]
    rfl
  · rw [delete_model, List.get?_append_right (by simp)]
    simp [base_delete_model, fill_delete_table]

/-- **C3 witness.** Two concrete references give exactly the two
drop-constraint statements followed by the one `DROP TABLE`. -/
theorem delete_model_statements_witness :
    (delete_model "t" [("fk1", "a"), ("fk2", "b")]).length = 3 ∧
    (delete_model "t" [("fk1", "a"), ("fk2", "b")]).get? 0 =
      some "ALTER TABLE A DROP CONSTRAINT fk1" ∧
    (delete_model "t" [("fk1", "a"), ("fk2", "b")]).get? 2 =
      some "DROP TABLE t" := by
  have h := delete_model_statements "t" [("fk1", "a"), ("fk2", "b")]
  refine ⟨h.1, ?_, h.2.2⟩
  exact (h.2.1 0 (by decide)).trans (by rfl)

/-- **C4.** Rename-table always fails with the explicit unsupported-operation
message and never yields a list of SQL statements to run against the
connection. -/
theorem alter_db_table_unsupported (old_table new_table : String) :
    alter_db_table old_table new_table = .error "Rename table is not allowed" ∧
    ∀ stmts : List String, alter_db_table old_table new_table ≠ .ok stmts := by
  exact ⟨rfl, fun stmts h => by cases h⟩

/-- **C5.** A primary-key field's column definition is the type string with
` PRIMARY KEY` appended and never mentions `UNIQUE` even when the unique flag
is also set; a unique non-primary-key field gets ` UNIQUE` appended exactly
once; a field with neither flag is the bare type string. -/
theorem column_sql_flags (type_sql : String) (u : Bool) :
    (∀ u2 : Bool, column_sql type_sql true u2 = type_sql ++ " PRIMARY KEY") ∧
    (u = true → column_sql type_sql false u = type_sql ++ " UNIQUE") ∧
    (u = false → column_sql type_sql false u = type_sql) := by
  refine ⟨fun u2 => rfl, fun hu => ?_, fun hu => ?_⟩
  · subst hu; rfl
  · subst hu; rfl

/-- **C5 witness.** With the concrete type string `integer`: a primary-key
field with the unique flag also set renders without `UNIQUE`, a unique
non-primary-key field appends ` UNIQUE` once, a plain field is bare. -/
theorem column_sql_flags_witness :
    column_sql "integer" true true = "integer PRIMARY KEY" ∧
    column_sql "integer" false true = "integer UNIQUE" ∧
    column_sql "integer" false false = "integer" := by
  refine ⟨(column_sql_flags "integer" true).1 true, ?_, ?_⟩
  · exact (column_sql_flags "integer" true).2.1 rfl
  · exact (column_sql_flags "integer" false).2.2 rfl
